import Mathlib

/-!
Shallow embedding of the scrapy-object-cache repository
(files scrapy_object_cache/middlewares.py and scrapy_object_cache/mokeskin.py).

Python values exchanged with the Mokeskin store are modelled by `WireVal`
(JSON-style values).  Requests, spiders and the two middlewares are modelled
as Lean structures and pure functions; the remote store is an oracle
(`MkStore`) whose per-key outcomes are inputs to the model, and the external
library functions `hashlib.md5(...).hexdigest()` and
`scrapy.utils.request.request_fingerprint` are inputs as well (`HashEnv`),
since they are outside this repository.  Python exceptions are modelled with
`Except` and the `PyErr` type.
-/

namespace ScrapyObjectCache

/-- JSON-style values: the payloads stored in and fetched from Mokeskin,
and the values held in a request meta dict. -/
inductive WireVal where
  | vNull : WireVal
  | vBool : Bool → WireVal
  | vInt : Int → WireVal
  | vStr : String → WireVal
  | vList : List WireVal → WireVal
  | vDict : List (String × WireVal) → WireVal

/-- Python dict lookup `d.get(k)` on an association list: first binding wins. -/
def pyLookup (fields : List (String × WireVal)) (key : String) : Option WireVal :=
  match fields.find? (fun p => p.1 == key) with
  | some p => some p.2
  | none => none

/-- Python truthiness of a `WireVal` (used by `if use_cache:` and friends). -/
def pyTruthy : WireVal → Bool
  | WireVal.vNull => false
  | WireVal.vBool b => b
  | WireVal.vInt n => n != 0
  | WireVal.vStr s => s != ""
  | WireVal.vList xs => !xs.isEmpty
  | WireVal.vDict fs => !fs.isEmpty

/-- A Python function object as far as the cache sees it: only its
name (read from the dunder name attribute on serialization) matters. -/
structure PyFunc where
  name : String

/-- A scrapy Request, restricted to the attributes the cache reads/writes. -/
structure Request where
  url : String
  method : String := "GET"
  body : String := ""
  headers : List (String × WireVal) := []
  meta : List (String × WireVal) := []
  dont_filter : Bool := false
  cookies : List (String × WireVal) := []
  callback : Option PyFunc := none
  errback : Option PyFunc := none

/-- A spider, restricted to the attributes the cache probes:
its name, the owner-level enable flag (read with a `False` default),
the two optional key-override hooks (`some` models a callable attribute
being present), and the names of its callable methods (used when a
stored callback/errback name is re-resolved with `getattr`). -/
structure Spider where
  name : String
  cache_object_enabled : Bool := false
  httpcache_get_request_key : Option (Request → Option String) := none
  get_request_key : Option (Request → Option String) := none
  methods : List String := []

/-- The external collaborators used by key derivation, which live outside
this repository: `hashlib.md5(...).hexdigest()` and scrapy's
`request_fingerprint`.  Both are deterministic pure functions. -/
structure HashEnv where
  md5hex : String → String
  request_fingerprint : Request → String

/-- Model of module-level `check_if_is_enabled` (middlewares.py lines 25-29):
the per-request meta flag wins unless it is absent or None, in which case the
owner-level attribute (default False) is used. -/
def check_if_is_enabled (request : Request) (spider : Spider) : WireVal :=
  match pyLookup request.meta "cache_object_enabled" with
  | some WireVal.vNull | none => WireVal.vBool spider.cache_object_enabled
  | some v => v

/-- Model of module-level `get_spider_request_key` (middlewares.py lines
32-46).  The sequential reassignments of `request_key_callback` are kept:
the legacy hook is probed first, then the current hook, and the LAST
assignment is the one that sticks. -/
def get_spider_request_key (env : HashEnv) (spider : Spider) (request : Request) : String :=
  let request_key := env.request_fingerprint request
  let request_key_callback : Option (Request → Option String) := none
  let request_key_callback := match spider.httpcache_get_request_key with
    | some f => some f
    | none => request_key_callback
  let request_key_callback := match spider.get_request_key with
    | some f => some f
    | none => request_key_callback
  let request_key := match request_key_callback with
    | some cb =>
      match cb request with
      | some key => key
      | none => request_key
    | none => request_key
  let spider_key := env.md5hex spider.name
  spider_key ++ ":" ++ request_key

/-- The callback that `get_spider_request_key` ends up selecting:
`get_request_key` if present (it is assigned last), else the legacy
`httpcache_get_request_key`, else nothing. -/
def selected_key_callback (spider : Spider) : Option (Request → Option String) :=
  match spider.get_request_key with
  | some f => some f
  | none => spider.httpcache_get_request_key

/-- The identity component of the final key: the selected override result
when the override exists and returns non-null, else the fingerprint. -/
def identity_component (env : HashEnv) (spider : Spider) (request : Request) : String :=
  match selected_key_callback spider with
  | some cb =>
    match cb request with
    | some key => key
    | none => env.request_fingerprint request
  | none => env.request_fingerprint request

/-- Characterisation of `get_spider_request_key` as owner hash, colon,
identity component. -/
theorem get_spider_request_key_eq (env : HashEnv) (spider : Spider) (request : Request) :
    get_spider_request_key env spider request =
      env.md5hex spider.name ++ ":" ++ identity_component env spider request := by
  cases hg : spider.get_request_key with
  | none =>
    cases hh : spider.httpcache_get_request_key with
    | none =>
      simp [get_spider_request_key, identity_component, selected_key_callback, hg, hh]
    | some f =>
      cases hf : f request with
      | none =>
        simp [get_spider_request_key, identity_component, selected_key_callback, hg, hh, hf]
      | some k =>
        simp [get_spider_request_key, identity_component, selected_key_callback, hg, hh, hf]
  | some f =>
    cases hf : f request with
    | none =>
      simp [get_spider_request_key, identity_component, selected_key_callback, hg, hf]
    | some k =>
      simp [get_spider_request_key, identity_component, selected_key_callback, hg, hf]

/-- Concrete hash environment used for witnesses and counterexamples:
a stand-in deterministic hash and fingerprint. -/
def env0 : HashEnv :=
  { md5hex := fun s => "md5(" ++ s ++ ")",
    request_fingerprint := fun _ => "FP" }

/-- Concrete request used for witnesses and counterexamples. -/
def req0 : Request :=
  { url := "http://example.com/page" }

/-- Concrete spider exposing BOTH key-override hooks, returning
distinct values, with caching enabled. -/
def spider_both : Spider :=
  { name := "sp",
    cache_object_enabled := true,
    httpcache_get_request_key := some (fun _ => some "LEGACY"),
    get_request_key := some (fun _ => some "CURRENT") }

/-- C6 counterexample: with both hooks exposed, the key derivation uses the
value of the CURRENT-named hook (`get_request_key`), not the legacy-named
one, because the probing sequence overwrites the earlier assignment. -/
theorem c6_counterexample :
    get_spider_request_key env0 spider_both req0 = "md5(sp):CURRENT" ∧
    get_spider_request_key env0 spider_both req0 ≠ "md5(sp):LEGACY" := by
  constructor
  · rfl
  · decide

/-- C6 (amended): for every owner exposing both the legacy-named and the
current-named key-override hooks as callables, key derivation invokes the
current-named hook (`get_request_key`, the last one found in the probing
order, wins), and its non-null return value replaces the structural
fingerprint as the identity component. -/
theorem c6_current_hook_wins (env : HashEnv) (spider : Spider) (request : Request)
    (f g : Request → Option String) (k : String)
    (hleg : spider.httpcache_get_request_key = some f)
    (hcur : spider.get_request_key = some g)
    (hres : g request = some k) :
    get_spider_request_key env spider request = env.md5hex spider.name ++ ":" ++ k := by
  rw [get_spider_request_key_eq]
  simp [identity_component, selected_key_callback, hcur, hres]

/-- C6 witness: the amended theorem applied at the concrete spider with
both hooks present. -/
theorem c6_witness :
    get_spider_request_key env0 spider_both req0 =
      env0.md5hex spider_both.name ++ ":" ++ "CURRENT" :=
  c6_current_hook_wins env0 spider_both req0
    (fun _ => some "LEGACY") (fun _ => some "CURRENT") "CURRENT" rfl rfl rfl

/-- C7: key derivation is deterministic — two runs on spiders with the same
name, the same structural fingerprint and the same override behaviour yield
the same string — and the result has the shape owner hash, colon, identity
component.  The embedding is a pure function of the (deterministic) hash
environment, the spider and the request, so no randomness and no wall clock
can enter the result. -/
theorem c7_key_deterministic (env : HashEnv) (s1 s2 : Spider) (r1 r2 : Request)
    (hname : s1.name = s2.name)
    (hfp : env.request_fingerprint r1 = env.request_fingerprint r2)
    (hhook : (selected_key_callback s1).map (fun f => f r1) =
             (selected_key_callback s2).map (fun f => f r2)) :
    get_spider_request_key env s1 r1 = get_spider_request_key env s2 r2 ∧
    get_spider_request_key env s1 r1 =
      env.md5hex s1.name ++ ":" ++ identity_component env s1 r1 := by
  refine ⟨?_, get_spider_request_key_eq env s1 r1⟩
  rw [get_spider_request_key_eq, get_spider_request_key_eq, hname]
  have hcomp : identity_component env s1 r1 = identity_component env s2 r2 := by
    unfold identity_component
    cases h1 : selected_key_callback s1 with
    | none =>
      cases h2 : selected_key_callback s2 with
      | none => simp [hfp]
      | some g => rw [h1, h2] at hhook; simp at hhook
    | some f =>
      cases h2 : selected_key_callback s2 with
      | none => rw [h1, h2] at hhook; simp at hhook
      | some g =>
        rw [h1, h2] at hhook
        simp only [Option.map_some'] at hhook
        rw [Option.some.injEq] at hhook
        simp [hhook, hfp]
  rw [hcomp]

/-- C7 witness: determinism and key shape at a concrete spider and request. -/
theorem c7_witness :
    get_spider_request_key env0 spider_both req0 = get_spider_request_key env0 spider_both req0 ∧
    get_spider_request_key env0 spider_both req0 =
      env0.md5hex spider_both.name ++ ":" ++ identity_component env0 spider_both req0 :=
  c7_key_deterministic env0 spider_both spider_both req0 req0 rfl rfl rfl

/-- A Mokeskin API error carrying its message (mokeskin.py line 13). -/
structure MokeskinAPIError where
  msg : String

/-- Python exceptions other than MokeskinAPIError that the middleware code
can raise. -/
inductive PyErr where
  | typeError : String → PyErr
  | keyError : String → PyErr
  | attributeError : String → PyErr

/-- One element of a completed task's output stream: a Request, an
Item/dict (a flat field mapping), or any other object. -/
inductive SpiderOutput where
  | req : Request → SpiderOutput
  | item : List (String × WireVal) → SpiderOutput
  | other : WireVal → SpiderOutput

/-- The Mokeskin client as the middlewares see it: three operations whose
per-call outcomes are determined by the remote store.  The outcomes are
inputs to the model (an oracle); `Except.error` models a raised
MokeskinAPIError. -/
structure MkStore where
  exists_result : String → Except MokeskinAPIError Bool
  get_result : String → Except MokeskinAPIError (Option (List WireVal))
  post_result : String → List WireVal → Option WireVal → Except MokeskinAPIError Unit

/-- Model of `ScrapyObjectSpiderMiddleware._serialize_request`
(middlewares.py lines 95-109): the request fields, with callback/errback
stored as their function NAMES only when present. -/
def ScrapyObjectSpiderMiddleware.serialize_request (request : Request) :
    List (String × WireVal) :=
  let request_dt : List (String × WireVal) :=
    [("url", WireVal.vStr request.url),
     ("method", WireVal.vStr request.method),
     ("body", WireVal.vStr request.body),
     ("headers", WireVal.vDict request.headers),
     ("meta", WireVal.vDict request.meta),
     ("dont_filter", WireVal.vBool request.dont_filter),
     ("cookies", WireVal.vDict request.cookies)]
  let request_dt := match request.callback with
    | some cb => request_dt ++ [("callback", WireVal.vStr cb.name)]
    | none => request_dt
  match request.errback with
  | some eb => request_dt ++ [("errback", WireVal.vStr eb.name)]
  | none => request_dt

/-- Model of `ScrapyObjectSpiderMiddleware._serialize_item`
(middlewares.py lines 111-112): `dict(item)` is the field mapping verbatim. -/
def ScrapyObjectSpiderMiddleware.serialize_item
    (item : List (String × WireVal)) : List (String × WireVal) :=
  item

/-- Model of the encoding loop inside `process_spider_output`
(middlewares.py lines 179-192).  For a Request the tagged dict with keys
"_type" and "_data" is appended.  For anything else the source evaluates
`isinstance(obj, [dict, Item])` — whose second argument is a LIST, which
raises TypeError in Python — so every Item/dict and every unknown object
aborts the loop with a TypeError; the warn-and-skip else branch is
unreachable. -/
def ScrapyObjectSpiderMiddleware.encode_loop :
    List SpiderOutput → Except PyErr (List WireVal)
  | [] => Except.ok []
  | obj :: rest =>
    match obj with
    | SpiderOutput.req r =>
      match ScrapyObjectSpiderMiddleware.encode_loop rest with
      | Except.ok tail =>
        Except.ok (WireVal.vDict
          [("_type", WireVal.vStr "request"),
           ("_data", WireVal.vDict (ScrapyObjectSpiderMiddleware.serialize_request r))] :: tail)
      | Except.error e => Except.error e
    | SpiderOutput.item _fields =>
      Except.error (PyErr.typeError "isinstance() arg 2 must be a type or tuple of types")
    | SpiderOutput.other _o =>
      Except.error (PyErr.typeError "isinstance() arg 2 must be a type or tuple of types")

/-- Model of `ScrapyObjectSpiderMiddleware.get_request_ttl`
(middlewares.py lines 76-77). -/
def ScrapyObjectSpiderMiddleware.get_request_ttl (request : Request) : Option WireVal :=
  pyLookup request.meta "MOKESKIN_TTL"

/-- Model of `ScrapyObjectSpiderMiddleware.exists_data`
(middlewares.py lines 154-169): the key is derived by the MODULE-level
`get_spider_request_key`; a MokeskinAPIError is caught, logged and turned
into None.  Returns the Python return value and the log lines emitted. -/
def ScrapyObjectSpiderMiddleware.exists_data (api : MkStore) (env : HashEnv)
    (spider : Spider) (request : Request) : Option Bool × List String :=
  let mk_key := get_spider_request_key env spider request
  match api.exists_result mk_key with
  | Except.error e => (none, ["Spider Object Cache (Mokeskin ERROR): " ++ e.msg])
  | Except.ok result => (some result, [])

/-- Model of `ScrapyObjectSpiderMiddleware.post_data`
(middlewares.py lines 131-152): the post call is always issued; a
MokeskinAPIError is caught and logged, success is logged too.  Returns the
list of post calls made (key, payload, ttl) and the log lines. -/
def ScrapyObjectSpiderMiddleware.post_data (api : MkStore) (env : HashEnv)
    (spider : Spider) (request : Request) (data : List WireVal) (ttl : Option WireVal) :
    List (String × List WireVal × Option WireVal) × List String :=
  let mk_key := get_spider_request_key env spider request
  match api.post_result mk_key data ttl with
  | Except.error e =>
    ([(mk_key, data, ttl)], ["Spider Object Cache (Mokeskin ERROR): " ++ e.msg])
  | Except.ok _ =>
    ([(mk_key, data, ttl)], ["Spider Object Cache: data stored (" ++ mk_key ++ ")"])

/-- Everything observable about one run of the Write Path: the value
returned (or the exception raised), the post calls issued and the log
lines emitted. -/
structure WriteEffect where
  result : Except PyErr (List SpiderOutput)
  posts : List (String × List WireVal × Option WireVal)
  logs : List String

/-- Model of `ScrapyObjectSpiderMiddleware.process_spider_output`
(middlewares.py lines 171-195).  When caching is enabled: check existence
(`if not key_exists:` lets both False and the None returned on StoreError
fall into the write branch), encode the outputs, and post with the
per-request TTL.  The outputs are returned unchanged unless the encode
loop raises. -/
def ScrapyObjectSpiderMiddleware.process_spider_output (api : MkStore) (env : HashEnv)
    (response_request : Request) (result : List SpiderOutput) (spider : Spider) :
    WriteEffect :=
  let use_cache := pyTruthy (check_if_is_enabled response_request spider)
  if use_cache then
    let ed := ScrapyObjectSpiderMiddleware.exists_data api env spider response_request
    match ed.1 with
    | some true => { result := Except.ok result, posts := [], logs := ed.2 }
    | _ =>
      match ScrapyObjectSpiderMiddleware.encode_loop result with
      | Except.error e => { result := Except.error e, posts := [], logs := ed.2 }
      | Except.ok data =>
        let req_ttl := ScrapyObjectSpiderMiddleware.get_request_ttl response_request
        let pd := ScrapyObjectSpiderMiddleware.post_data api env spider response_request
          data req_ttl
        { result := Except.ok result, posts := pd.1, logs := ed.2 ++ pd.2 }
  else
    { result := Except.ok result, posts := [], logs := [] }

/-- Model of the method `ScrapyObjectSpiderMiddleware.get_spider_request_key`
(middlewares.py lines 79-93), a line-for-line duplicate of the module-level
function; `self` is not used by the method body. -/
def ScrapyObjectSpiderMiddleware.get_spider_request_key
    (env : HashEnv) (spider : Spider) (request : Request) : String :=
  let request_key := env.request_fingerprint request
  let request_key_callback : Option (Request → Option String) := none
  let request_key_callback := match spider.httpcache_get_request_key with
    | some f => some f
    | none => request_key_callback
  let request_key_callback := match spider.get_request_key with
    | some f => some f
    | none => request_key_callback
  let request_key := match request_key_callback with
    | some cb =>
      match cb request with
      | some key => key
      | none => request_key
    | none => request_key
  let spider_key := env.md5hex spider.name
  spider_key ++ ":" ++ request_key

/-- C10: the module-level key-derivation function and the Spider
Middleware's duplicated key-derivation method compute identical keys for
every hash environment, owner and task. -/
theorem c10_duplicate_key_functions_agree (env : HashEnv) (spider : Spider) (request : Request) :
    ScrapyObjectSpiderMiddleware.get_spider_request_key env spider request =
      get_spider_request_key env spider request := rfl

/-- Concrete spider with caching enabled and no override hooks. -/
def spider_en : Spider :=
  { name := "sp", cache_object_enabled := true, methods := ["parse_page"] }

/-- Concrete request carrying a named callback, used in round-trip inputs. -/
def req1 : Request :=
  { url := "http://example.com/next",
    callback := some { name := "parse_page" } }

/-- Store oracle: the key already exists; get and post succeed. -/
def store_true : MkStore :=
  { exists_result := fun _ => Except.ok true,
    get_result := fun _ => Except.ok none,
    post_result := fun _ _ _ => Except.ok () }

/-- Store oracle: the key does not exist; get misses; post succeeds. -/
def store_miss : MkStore :=
  { exists_result := fun _ => Except.ok false,
    get_result := fun _ => Except.ok none,
    post_result := fun _ _ _ => Except.ok () }

/-- C4: for every enabled task whose key's existence check returns true,
the Write Path issues zero post calls and passes the outputs through
unchanged. -/
theorem c4_write_once (api : MkStore) (env : HashEnv) (spider : Spider)
    (request : Request) (outputs : List SpiderOutput)
    (hen : pyTruthy (check_if_is_enabled request spider) = true)
    (hex : api.exists_result (get_spider_request_key env spider request) = Except.ok true) :
    (ScrapyObjectSpiderMiddleware.process_spider_output api env request outputs spider).posts
      = [] ∧
    (ScrapyObjectSpiderMiddleware.process_spider_output api env request outputs spider).result
      = Except.ok outputs := by
  simp [ScrapyObjectSpiderMiddleware.process_spider_output,
    ScrapyObjectSpiderMiddleware.exists_data, hen, hex]

/-- C4 witness: the write-once theorem at a concrete enabled request and
a store whose existence check answers true. -/
theorem c4_witness :
    (ScrapyObjectSpiderMiddleware.process_spider_output store_true env0 req0
      [SpiderOutput.req req1] spider_en).posts = [] ∧
    (ScrapyObjectSpiderMiddleware.process_spider_output store_true env0 req0
      [SpiderOutput.req req1] spider_en).result = Except.ok [SpiderOutput.req req1] :=
  c4_write_once store_true env0 spider_en req0 [SpiderOutput.req req1] rfl rfl

/-- C5: evaluating the Write Path on an enabled task with a miss and an
output that is neither a Request nor an Item shows that the encoder does
NOT skip it with a warning: the `isinstance(obj, [dict, Item])` test raises
TypeError and the exception propagates out of `process_spider_output`.
The same happens for an Item output. -/
theorem c5_unknown_output_raises :
    (ScrapyObjectSpiderMiddleware.process_spider_output store_miss env0 req0
      [SpiderOutput.other (WireVal.vInt 5)] spider_en).result =
      Except.error (PyErr.typeError "isinstance() arg 2 must be a type or tuple of types") ∧
    (ScrapyObjectSpiderMiddleware.process_spider_output store_miss env0 req0
      [SpiderOutput.item [("title", WireVal.vStr "x")]] spider_en).result =
      Except.error (PyErr.typeError "isinstance() arg 2 must be a type or tuple of types") :=
  ⟨rfl, rfl⟩

/-- Store oracle whose existence check raises a MokeskinAPIError. -/
def store_err : MkStore :=
  { exists_result := fun _ => Except.error { msg := "boom" },
    get_result := fun _ => Except.ok none,
    post_result := fun _ _ _ => Except.ok () }

/-- Encoding a batch consisting only of Requests succeeds and produces one
tagged dict per request. -/
theorem encode_loop_map_req (reqs : List Request) :
    ScrapyObjectSpiderMiddleware.encode_loop (reqs.map SpiderOutput.req) =
      Except.ok (reqs.map (fun r => WireVal.vDict
        [("_type", WireVal.vStr "request"),
         ("_data", WireVal.vDict (ScrapyObjectSpiderMiddleware.serialize_request r))])) := by
  induction reqs with
  | nil => rfl
  | cons r rest ih => simp [ScrapyObjectSpiderMiddleware.encode_loop, ih]

/-- C2 counterexample: for an enabled task whose existence check raises a
StoreError, the Write Path does NOT treat the outcome as SKIPPED — it
issues a post call for the key (one call, not zero as the claim states). -/
theorem c2_counterexample :
    pyTruthy (check_if_is_enabled req0 spider_en) = true ∧
    (ScrapyObjectSpiderMiddleware.process_spider_output store_err env0 req0
      [SpiderOutput.req req1] spider_en).posts.length = 1 :=
  ⟨rfl, rfl⟩

/-- C2 (amended): for every enabled task whose existence check raises a
StoreError and whose outputs are all Tasks, the Write Path logs the error,
treats the key as absent (NOT as SKIPPED), proceeds to encode the outputs
and issues exactly one post call for that key; no exception escapes the
cache component and the outputs are still returned unchanged. -/
theorem c2_store_error_proceeds_to_write (api : MkStore) (env : HashEnv)
    (spider : Spider) (request : Request) (reqs : List Request) (e : MokeskinAPIError)
    (hen : pyTruthy (check_if_is_enabled request spider) = true)
    (hex : api.exists_result (get_spider_request_key env spider request) = Except.error e) :
    (ScrapyObjectSpiderMiddleware.process_spider_output api env request
        (reqs.map SpiderOutput.req) spider).result =
      Except.ok (reqs.map SpiderOutput.req) ∧
    (ScrapyObjectSpiderMiddleware.process_spider_output api env request
        (reqs.map SpiderOutput.req) spider).posts.map (fun p => p.1) =
      [get_spider_request_key env spider request] ∧
    ("Spider Object Cache (Mokeskin ERROR): " ++ e.msg) ∈
      (ScrapyObjectSpiderMiddleware.process_spider_output api env request
        (reqs.map SpiderOutput.req) spider).logs := by
  cases hp : api.post_result (get_spider_request_key env spider request)
      (reqs.map (fun r => WireVal.vDict
        [("_type", WireVal.vStr "request"),
         ("_data", WireVal.vDict (ScrapyObjectSpiderMiddleware.serialize_request r))]))
      (ScrapyObjectSpiderMiddleware.get_request_ttl request) with
  | error e2 =>
    simp [ScrapyObjectSpiderMiddleware.process_spider_output,
      ScrapyObjectSpiderMiddleware.exists_data, ScrapyObjectSpiderMiddleware.post_data,
      hen, hex, encode_loop_map_req, hp]
  | ok u =>
    simp [ScrapyObjectSpiderMiddleware.process_spider_output,
      ScrapyObjectSpiderMiddleware.exists_data, ScrapyObjectSpiderMiddleware.post_data,
      hen, hex, encode_loop_map_req, hp]

/-- C2 witness: the amended theorem at the concrete failing store. -/
theorem c2_witness :
    (ScrapyObjectSpiderMiddleware.process_spider_output store_err env0 req0
        ([req1].map SpiderOutput.req) spider_en).result =
      Except.ok ([req1].map SpiderOutput.req) ∧
    (ScrapyObjectSpiderMiddleware.process_spider_output store_err env0 req0
        ([req1].map SpiderOutput.req) spider_en).posts.map (fun p => p.1) =
      [get_spider_request_key env0 spider_en req0] ∧
    ("Spider Object Cache (Mokeskin ERROR): " ++ MokeskinAPIError.msg { msg := "boom" }) ∈
      (ScrapyObjectSpiderMiddleware.process_spider_output store_err env0 req0
        ([req1].map SpiderOutput.req) spider_en).logs :=
  c2_store_error_proceeds_to_write store_err env0 spider_en req0 [req1]
    { msg := "boom" } rfl rfl

/-- Python direct dict indexing `d[k]`: raises KeyError when absent. -/
def pyIndex (fields : List (String × WireVal)) (key : String) : Except PyErr WireVal :=
  match pyLookup fields key with
  | some v => Except.ok v
  | none => Except.error (PyErr.keyError key)

/-- Coerce a wire value to a string, as the places where Python would fail
on a non-string do (for example `body.encode` on a non-string). -/
def asStr (v : WireVal) : Except PyErr String :=
  match v with
  | WireVal.vStr s => Except.ok s
  | _ => Except.error (PyErr.typeError "expected a string")

/-- Coerce a wire value to a dict. -/
def asDict (v : WireVal) : Except PyErr (List (String × WireVal)) :=
  match v with
  | WireVal.vDict fs => Except.ok fs
  | _ => Except.error (PyErr.typeError "expected a dict")

/-- Coerce a wire value to a bool. -/
def asBool (v : WireVal) : Except PyErr Bool :=
  match v with
  | WireVal.vBool b => Except.ok b
  | _ => Except.error (PyErr.typeError "expected a bool")

/-- Model of `ScrapyObjectDownloaderMiddleware._dummy_request`
(middlewares.py lines 284-289): the placeholder request pointed at a
harmless file URL, carrying the cache key and the keep-session marker in
its meta, bypassing the duplicate filter, with the replay handler as its
callback. -/
def ScrapyObjectDownloaderMiddleware.dummy_request (mk_key : String) : Request :=
  { url := "file:///etc/hosts",
    meta := [("mk_key", WireVal.vStr mk_key), ("keep_session", WireVal.vBool true)],
    callback := some { name := "get_and_parse_mokeskin_cache" },
    dont_filter := true }

/-- Model of `ScrapyObjectDownloaderMiddleware.exists_data`
(lines 291-301): a MokeskinAPIError is caught, logged and turned into
None (log lines omitted here; they do not affect the data flow). -/
def ScrapyObjectDownloaderMiddleware.exists_data (api : MkStore) (mk_key : String) :
    Option Bool :=
  match api.exists_result mk_key with
  | Except.error _ => none
  | Except.ok result => some result

/-- Model of `ScrapyObjectDownloaderMiddleware.get_data` (lines 303-313):
a MokeskinAPIError is caught, logged and turned into None, so the caller
cannot tell a 404 miss from a store failure. -/
def ScrapyObjectDownloaderMiddleware.get_data (api : MkStore) (mk_key : String) :
    Option (List WireVal) :=
  match api.get_result mk_key with
  | Except.error _ => none
  | Except.ok data => data

/-- Model of `ScrapyObjectDownloaderMiddleware._deserialize_request`
(lines 254-272): rebuild a Request from the stored dict (direct index
lookups raise KeyError when a field is absent; the body text is re-encoded
to bytes), then re-resolve the callback/errback names against the spider;
a name that does not resolve to a callable is silently dropped. -/
def ScrapyObjectDownloaderMiddleware.deserialize_request
    (data : List (String × WireVal)) (spider : Spider) : Except PyErr Request := do
  let url ← asStr (← pyIndex data "url")
  let method ← asStr (← pyIndex data "method")
  let body ← asStr (← pyIndex data "body")
  let headers ← asDict (← pyIndex data "headers")
  let meta ← asDict (← pyIndex data "meta")
  let df ← asBool (← pyIndex data "dont_filter")
  let cookies ← asDict (← pyIndex data "cookies")
  let req : Request :=
    { url := url, method := method, body := body, headers := headers,
      meta := meta, dont_filter := df, cookies := cookies }
  let req ← match pyLookup data "callback" with
    | none | some WireVal.vNull => pure req
    | some (WireVal.vStr cb) =>
      if spider.methods.contains cb then
        pure { req with callback := some { name := cb } }
      else
        pure req
    | some _ => Except.error (PyErr.typeError "attribute name must be string")
  match pyLookup data "errback" with
  | none | some WireVal.vNull => pure req
  | some (WireVal.vStr eb) =>
    if spider.methods.contains eb then
      pure { req with errback := some { name := eb } }
    else
      pure req
  | some _ => Except.error (PyErr.typeError "attribute name must be string")

/-- Model of the loop body of `get_and_parse_mokeskin_cache`
(lines 318-327).  Each stored element is indexed with its "_type" tag;
elements tagged "request" or "item" are then indexed with the key "data" —
but the write path stored the payload under "_data", so this lookup raises
KeyError on every entry the write path produced.  Were the "data" key
present, the item branch would still fail: `_deserialize_item` (line 275)
begins with `self.loader(...)` while the attribute is named `loader_cls`,
an AttributeError.  Elements with any other tag are silently skipped. -/
def ScrapyObjectDownloaderMiddleware.decode_loop (spider : Spider) :
    List WireVal → Except PyErr (List SpiderOutput)
  | [] => Except.ok []
  | mk_obj :: rest =>
    match mk_obj with
    | WireVal.vDict fields =>
      match pyIndex fields "_type" with
      | Except.error e => Except.error e
      | Except.ok obj_type =>
        match obj_type with
        | WireVal.vStr s =>
          if s = "request" then
            match pyIndex fields "data" with
            | Except.error e => Except.error e
            | Except.ok d =>
              match d with
              | WireVal.vDict dd =>
                match ScrapyObjectDownloaderMiddleware.deserialize_request dd spider with
                | Except.error e => Except.error e
                | Except.ok r =>
                  match ScrapyObjectDownloaderMiddleware.decode_loop spider rest with
                  | Except.error e => Except.error e
                  | Except.ok tail => Except.ok (SpiderOutput.req r :: tail)
              | _ => Except.error (PyErr.typeError "request data is not a dict")
          else if s = "item" then
            match pyIndex fields "data" with
            | Except.error e => Except.error e
            | Except.ok _ => Except.error (PyErr.attributeError "loader")
          else
            ScrapyObjectDownloaderMiddleware.decode_loop spider rest
        | _ => ScrapyObjectDownloaderMiddleware.decode_loop spider rest
    | _ => Except.error (PyErr.typeError "element is not subscriptable")

/-- Model of `ScrapyObjectDownloaderMiddleware.get_and_parse_mokeskin_cache`
(lines 315-327), fully materialised (the engine exhausts the generator).
It reads the key from the response meta, fetches via `get_data` (None both
on a 404 miss and on a caught MokeskinAPIError) and iterates the result;
`for mk_obj in data` raises TypeError when data is None. -/
def ScrapyObjectDownloaderMiddleware.get_and_parse_mokeskin_cache (api : MkStore)
    (spider : Spider) (response_meta : List (String × WireVal)) :
    Except PyErr (List SpiderOutput) :=
  match pyIndex response_meta "mk_key" with
  | Except.error e => Except.error e
  | Except.ok (WireVal.vStr mk_key) =>
    match ScrapyObjectDownloaderMiddleware.get_data api mk_key with
    | none => Except.error (PyErr.typeError "NoneType is not iterable")
    | some data => ScrapyObjectDownloaderMiddleware.decode_loop spider data
  | Except.ok _ => Except.error (PyErr.typeError "mokeskin key is not a string")

/-- Model of `ScrapyObjectDownloaderMiddleware.process_request`
(lines 329-337): when caching is enabled and the existence check answers
True, the dummy request replaces the real one; on False, on a caught
StoreError (None) and when caching is disabled, nothing is returned and
the real request proceeds. -/
def ScrapyObjectDownloaderMiddleware.process_request (api : MkStore) (env : HashEnv)
    (request : Request) (spider : Spider) : Option Request :=
  if pyTruthy (check_if_is_enabled request spider) then
    let mk_key := get_spider_request_key env spider request
    match ScrapyObjectDownloaderMiddleware.exists_data api mk_key with
    | some true => some (ScrapyObjectDownloaderMiddleware.dummy_request mk_key)
    | _ => none
  else
    none

/-- Store oracle whose get raises a MokeskinAPIError. -/
def store_geterr : MkStore :=
  { exists_result := fun _ => Except.ok true,
    get_result := fun _ => Except.error { msg := "boom" },
    post_result := fun _ _ _ => Except.ok () }

/-- C3: replaying a placeholder when the store get returns none (expiry
race after a successful existence check — `store_true` answers the
existence check with true and the fetch with a 404 None) or raises a
StoreError does NOT yield an empty output sequence: iterating the None
returned by `get_data` raises TypeError. -/
theorem c3_replay_race_raises :
    ScrapyObjectDownloaderMiddleware.get_and_parse_mokeskin_cache store_true spider_en
      (ScrapyObjectDownloaderMiddleware.dummy_request "k").meta =
      Except.error (PyErr.typeError "NoneType is not iterable") ∧
    ScrapyObjectDownloaderMiddleware.get_and_parse_mokeskin_cache store_geterr spider_en
      (ScrapyObjectDownloaderMiddleware.dummy_request "k").meta =
      Except.error (PyErr.typeError "NoneType is not iterable") :=
  ⟨rfl, rfl⟩

/-- The wire payload the write path produces for the batch `[req1]`. -/
def stored1 : List WireVal :=
  [WireVal.vDict
    [("_type", WireVal.vStr "request"),
     ("_data", WireVal.vDict (ScrapyObjectSpiderMiddleware.serialize_request req1))]]

/-- Store oracle holding `stored1`: the existence check answers true and
the fetch returns the stored payload. -/
def store_holding1 : MkStore :=
  { exists_result := fun _ => Except.ok true,
    get_result := fun _ => Except.ok (some stored1),
    post_result := fun _ _ _ => Except.ok () }

/-- C1: the write-then-read round trip is broken.  Encoding the batch
`[req1]` (a single Task) succeeds and stores each payload under the key
"_data", but decoding the very same stored payload raises KeyError "data",
because the read path indexes the entries with the key "data". -/
theorem c1_roundtrip_broken :
    ScrapyObjectSpiderMiddleware.encode_loop [SpiderOutput.req req1] = Except.ok stored1 ∧
    ScrapyObjectDownloaderMiddleware.get_and_parse_mokeskin_cache store_holding1 spider_en
      (ScrapyObjectDownloaderMiddleware.dummy_request "k").meta =
      Except.error (PyErr.keyError "data") :=
  ⟨rfl, rfl⟩

/-- C8: when caching is enabled and the existence check answers true, the
Read Path substitutes the placeholder request — file URL target bypassing
the filter, cache key and keep-session marker in its meta, the replay
handler as its callback; when the check answers false or caching is
disabled, nothing is returned and the real request proceeds. -/
theorem c8_hit_substitutes_placeholder (api : MkStore) (env : HashEnv)
    (request : Request) (spider : Spider) :
    (pyTruthy (check_if_is_enabled request spider) = true →
      api.exists_result (get_spider_request_key env spider request) = Except.ok true →
      ScrapyObjectDownloaderMiddleware.process_request api env request spider =
        some { url := "file:///etc/hosts",
               meta := [("mk_key", WireVal.vStr (get_spider_request_key env spider request)),
                        ("keep_session", WireVal.vBool true)],
               callback := some { name := "get_and_parse_mokeskin_cache" },
               dont_filter := true }) ∧
    (pyTruthy (check_if_is_enabled request spider) = false →
      ScrapyObjectDownloaderMiddleware.process_request api env request spider = none) ∧
    (api.exists_result (get_spider_request_key env spider request) = Except.ok false →
      ScrapyObjectDownloaderMiddleware.process_request api env request spider = none) := by
  refine ⟨fun h1 h2 => ?_, fun h1 => ?_, fun h2 => ?_⟩
  · simp [ScrapyObjectDownloaderMiddleware.process_request,
      ScrapyObjectDownloaderMiddleware.exists_data,
      ScrapyObjectDownloaderMiddleware.dummy_request, h1, h2]
  · simp [ScrapyObjectDownloaderMiddleware.process_request, h1]
  · by_cases h1 : pyTruthy (check_if_is_enabled request spider) = true
    · simp [ScrapyObjectDownloaderMiddleware.process_request,
        ScrapyObjectDownloaderMiddleware.exists_data, h1, h2]
    · simp only [Bool.not_eq_true] at h1
      simp [ScrapyObjectDownloaderMiddleware.process_request, h1]

/-- C8 witness: the hit branch at the concrete enabled request against a
store whose existence check answers true. -/
theorem c8_witness :
    ScrapyObjectDownloaderMiddleware.process_request store_true env0 req0 spider_en =
      some { url := "file:///etc/hosts",
             meta := [("mk_key", WireVal.vStr (get_spider_request_key env0 spider_en req0)),
                      ("keep_session", WireVal.vBool true)],
             callback := some { name := "get_and_parse_mokeskin_cache" },
             dont_filter := true } :=
  (c8_hit_substitutes_placeholder store_true env0 req0 spider_en).1 rfl rfl

/-- Model of module-level `get_api_url` (mokeskin.py lines 8-9). -/
def get_api_url (url qry : String) : String :=
  url ++ "?" ++ qry

/-- The Mokeskin HTTP client configuration (mokeskin.py lines 17-23). -/
structure MokeskinAPI where
  host : String
  api_key : String
  tag_name : String
  ttl : Option Int := none

/-- Model of `MokeskinAPI._mokeskin_url` (lines 25-33).  `urljoin(host,
route)` is modelled as string concatenation, which is exact when the host
is a bare origin without a trailing slash. -/
def MokeskinAPI.mokeskin_url (api : MokeskinAPI) (key : Option String)
    (existsRoute : Bool) : String :=
  let mk_route := if existsRoute then "/exists" else "/items"
  let mk_query := "tag=" ++ api.tag_name ++ "&api_key=" ++ api.api_key
  let url := api.host ++ mk_route
  let url := match key with
    | some k => url ++ "/" ++ k
    | none => url
  get_api_url url mk_query

/-- Observable outcome of one `MokeskinAPI.post` call: the JSON body sent
and the result — success or a raised MokeskinAPIError. -/
structure PostCall where
  body : List (String × WireVal)
  outcome : Except MokeskinAPIError Unit

/-- Model of `MokeskinAPI.post` (lines 46-59).  The HTTP status code of the
response is an input to the model.  The body holds the key, the data, and
an "exp" field taken from the call argument when present, else from the
client default when present, else omitted (`int(ttl)` is the identity here
because TTLs are already modelled as integers).  Only a 201 status is a
success; any other status raises an error whose message carries the URL
and the status code. -/
def MokeskinAPI.post (api : MokeskinAPI) (key : String) (data : WireVal)
    (ttl : Option Int) (stat_code : Nat) : PostCall :=
  let mk_url := api.mokeskin_url none false
  let full_data : List (String × WireVal) := [("key", WireVal.vStr key), ("data", data)]
  let full_data := match ttl with
    | some t => full_data ++ [("exp", WireVal.vInt t)]
    | none =>
      match api.ttl with
      | some t => full_data ++ [("exp", WireVal.vInt t)]
      | none => full_data
  { body := full_data,
    outcome :=
      if stat_code = 201 then
        Except.ok ()
      else
        Except.error
          { msg := "[POST] ERROR - No 201 response URL: " ++ mk_url ++
              ", CODE: " ++ toString stat_code } }

/-- Model of `MokeskinAPI.get` (lines 35-44): the status code and, for a
200 response, the payload decoded from the body are inputs to the model. -/
def MokeskinAPI.get (api : MokeskinAPI) (key : String) (stat_code : Nat)
    (payload : WireVal) : Except MokeskinAPIError (Option WireVal) :=
  let mk_url := api.mokeskin_url (some key) false
  if stat_code = 404 then
    Except.ok none
  else if stat_code ≠ 200 then
    Except.error
      { msg := "[GET] ERROR - No 200 response URL: " ++ mk_url ++
          ", CODE: " ++ toString stat_code }
  else
    Except.ok (some payload)

/-- Model of the method named `exists` on `MokeskinAPI` (lines 61-70);
called `exists_check` here because `exists` is a Lean keyword. -/
def MokeskinAPI.exists_check (api : MokeskinAPI) (key : String) (stat_code : Nat) :
    Except MokeskinAPIError Bool :=
  let mk_url := api.mokeskin_url (some key) true
  if stat_code = 404 then
    Except.ok false
  else if stat_code ≠ 200 then
    Except.error
      { msg := "[EXISTS] ERROR - No 200 response URL: " ++ mk_url ++
          ", CODE: " ++ toString stat_code }
  else
    Except.ok true

/-- C9: every post call sends the JSON body holding the key, the data and
an integer "exp" field exactly when a TTL is resolved from the call
argument or the client default; a 201 response is a success and any other
status raises a MokeskinAPIError whose message carries the URL and the
status code. -/
theorem c9_post_contract (api : MokeskinAPI) (key : String) (data : WireVal)
    (ttl : Option Int) (stat_code : Nat) :
    (api.post key data ttl stat_code).body =
      [("key", WireVal.vStr key), ("data", data)] ++
        (match ttl.orElse (fun _ => api.ttl) with
         | some t => [("exp", WireVal.vInt t)]
         | none => []) ∧
    (stat_code = 201 → (api.post key data ttl stat_code).outcome = Except.ok ()) ∧
    (stat_code ≠ 201 → (api.post key data ttl stat_code).outcome =
      Except.error
        { msg := "[POST] ERROR - No 201 response URL: " ++
            api.mokeskin_url none false ++ ", CODE: " ++ toString stat_code }) := by
  refine ⟨?_, fun h => ?_, fun h => ?_⟩
  · cases ttl with
    | none => cases h2 : api.ttl <;> simp [MokeskinAPI.post, Option.orElse, h2]
    | some t => simp [MokeskinAPI.post, Option.orElse]
  · simp [MokeskinAPI.post, h]
  · simp [MokeskinAPI.post, h]

/-- Concrete Mokeskin client used by the C9 witness. -/
def mkapi0 : MokeskinAPI :=
  { host := "http://mk", api_key := "K", tag_name := "tg", ttl := some 21600 }

/-- C9 witness: the post contract at a concrete client, payload and a 404
response; the "exp" field is resolved from the client default. -/
theorem c9_witness :
    (mkapi0.post "k" (WireVal.vStr "d") none 404).body =
      [("key", WireVal.vStr "k"), ("data", WireVal.vStr "d")] ++
        (match (none : Option Int).orElse (fun _ => mkapi0.ttl) with
         | some t => [("exp", WireVal.vInt t)]
         | none => []) ∧
    (mkapi0.post "k" (WireVal.vStr "d") none 404).outcome =
      Except.error
        { msg := "[POST] ERROR - No 201 response URL: " ++
            mkapi0.mokeskin_url none false ++ ", CODE: " ++ toString 404 } :=
  ⟨(c9_post_contract mkapi0 "k" (WireVal.vStr "d") none 404).1,
   (c9_post_contract mkapi0 "k" (WireVal.vStr "d") none 404).2.2 (by decide)⟩

end ScrapyObjectCache
